import Mathlib

/-!
Shallow embedding of the CarConvo matching and ranking engine
(`backend/services/car_matcher.py`, class `CarMatcher`).

Python numbers are modelled by `ℚ` (all arithmetic in the engine is exact
on the inputs the claims exercise), except for the cosine-similarity score,
which uses `math.sqrt` and is therefore modelled in `ℝ`.  Python dicts whose
key sets are open (lifestyle profiles, lifestyle score vectors) are modelled
as ordered association lists; dicts with a fixed, known key set (the filter
and boost dictionaries built by `_parse_conversation_preferences`) are
modelled as structures with `Option` fields, `none` standing for an absent
key.  Lists keep their order; Python's stable `list.sort(key=..., reverse=True)`
is modelled by `List.insertionSort` with the reflexive descending relation,
which is stable in the same sense.
-/

namespace CarConvo

/-! ### Character and string helpers (Python `str` operations on ASCII text) -/

/-- Python `str.lower()` on a list of characters. -/
def toLowerChars (s : List Char) : List Char := s.map Char.toLower

/-- Python `str.upper()` on a list of characters. -/
def toUpperChars (s : List Char) : List Char := s.map Char.toUpper

/-- Python `str.lower()`. -/
def toLowerStr (s : String) : String := ⟨toLowerChars s.data⟩

/-- Python `str.upper()`. -/
def toUpperStr (s : String) : String := ⟨toUpperChars s.data⟩

/-- Does `needle` occur at the very start of `hay`? -/
def startsWithChars : List Char → List Char → Bool
  | _, [] => true
  | [], _ :: _ => false
  | c :: cs, d :: ds => c == d && startsWithChars cs ds

/-- Python's substring test `needle in hay` (an empty needle always matches). -/
def containsChars : List Char → List Char → Bool
  | [], needle => needle.isEmpty
  | c :: t, needle => startsWithChars (c :: t) needle || containsChars t needle

/-- Python `lit in s` on strings. -/
def strContains (s lit : String) : Bool := containsChars s.data lit.data

/-- Python `\d` character class (ASCII digits; the engine only sees ASCII). -/
def isDigitChar (c : Char) : Bool := '0' ≤ c && c ≤ '9'

/-- Python `\s` character class on ASCII text. -/
def isSpaceChar (c : Char) : Bool :=
  c == ' ' || c == '\t' || c == '\n' || c == '\r' || c == '\x0b' || c == '\x0c'

/-- Is the character an ASCII letter (used by `str.title()`)? -/
def isAlphaChar (c : Char) : Bool :=
  ('a' ≤ c && c ≤ 'z') || ('A' ≤ c && c ≤ 'Z')

/-- Numeric value of a run of ASCII digits, as Python `int(...)` on the run. -/
def digitsToNat (ds : List Char) : Nat :=
  ds.foldl (fun acc c => acc * 10 + (c.toNat - '0'.toNat)) 0

/-- Python `' '.join(parts)`. -/
def joinSpace : List (List Char) → List Char
  | [] => []
  | [p] => p
  | p :: q :: rest => p ++ ' ' :: joinSpace (q :: rest)

/-- Python `not s.strip()`: the text contains only whitespace (or is empty). -/
def isAllSpace (s : List Char) : Bool := s.all isSpaceChar

/-! ### Association-list operations (Python `dict` lookups) -/

/-- First-match lookup in an ordered association list (`d[k]` / `d.get(k)`).
Python dicts have unique keys, so first-match agrees with dict lookup. -/
def alookup (l : List (String × ℚ)) (k : String) : Option ℚ :=
  match l with
  | [] => none
  | p :: t => if p.1 = k then some p.2 else alookup t k

/-- Python `k in d`. -/
def hasKey (l : List (String × ℚ)) (k : String) : Bool := (alookup l k).isSome

/-- Python `d.get(k, 5)`, the profile accessor used by the feature scorer. -/
def profGet (l : List (String × ℚ)) (k : String) : ℚ := (alookup l k).getD 5

/-! ### Budget affinity (`_calculate_budget_affinity`, lines 194-243) -/

/-- Piecewise penalty curve of `_calculate_budget_affinity` as a function of
`price_ratio = car_price / user_budget` (lines 219-243 of the source,
with the float literals `1.10`, `1.20`, `1.30` read as the rationals they
denote). -/
def budgetCurve (ratio : ℚ) : ℚ :=
  if ratio ≤ 1 then 100 - (1 - ratio) * 5
  else if ratio ≤ 11 / 10 then 100 - (ratio - 1) * 150
  else if ratio ≤ 6 / 5 then 100 - (15 + (ratio - 11 / 10) * 250)
  else if ratio ≤ 13 / 10 then 100 - (40 + (ratio - 6 / 5) * 300)
  else max 0 (30 - (ratio - 13 / 10) * 50)

/-- `_calculate_budget_affinity(car_price, user_budget)`.  The guard
`if not user_budget or user_budget <= 0: return 85` is the first line of the
body; otherwise the piecewise curve is applied to `car_price / user_budget`. -/
def calculateBudgetAffinity (carPrice : ℚ) (userBudget : ℤ) : ℚ :=
  if userBudget = 0 ∨ userBudget ≤ 0 then 85
  else budgetCurve (carPrice / (userBudget : ℚ))

/-- C2: for a positive budget the affinity score is `budgetCurve (P/B)`; the
curve hits the anchors `(1, 100)`, `(1.10, 85)`, `(1.20, 60)`, `(1.30, 30)`,
drops below 30 at ratio 1.31, is non-increasing on `ratio ≥ 1`, and is
exactly 0 for every ratio ≥ 1.9. -/
theorem budget_affinity_curve_anchored_and_antitone :
    (∀ (P : ℚ) (B : ℤ), 0 < B → calculateBudgetAffinity P B = budgetCurve (P / (B : ℚ)))
    ∧ (budgetCurve 1 = 100 ∧ budgetCurve (11 / 10) = 85 ∧ budgetCurve (6 / 5) = 60
        ∧ budgetCurve (13 / 10) = 30 ∧ budgetCurve (131 / 100) < 30)
    ∧ (∀ r1 r2 : ℚ, 1 ≤ r1 → r1 ≤ r2 → budgetCurve r2 ≤ budgetCurve r1)
    ∧ (∀ r : ℚ, 19 / 10 ≤ r → budgetCurve r = 0) := by
  refine ⟨?_, ⟨?_, ?_, ?_, ?_, ?_⟩, ?_, ?_⟩
  · intro P B hB
    unfold calculateBudgetAffinity
    rw [if_neg]
    push_neg
    omega
  · norm_num [budgetCurve]
  · norm_num [budgetCurve]
  · norm_num [budgetCurve]
  · norm_num [budgetCurve]
  · norm_num [budgetCurve]
  · intro r1 r2 h1 h12
    unfold budgetCurve
    split_ifs <;>
      first
        | linarith
        | (exfalso; linarith)
        | (apply max_le <;> linarith)
        | (exact max_le_max le_rfl (by linarith))
  · intro r hr
    unfold budgetCurve
    split_ifs <;>
      first
        | linarith
        | (exact max_eq_left (by linarith))

/-- Witness for `budget_affinity_curve_anchored_and_antitone` at concrete inputs. -/
theorem budget_affinity_curve_witness :
    calculateBudgetAffinity 120 100 = budgetCurve (120 / 100)
      ∧ budgetCurve 2 ≤ budgetCurve 1 ∧ budgetCurve 2 = 0 :=
  ⟨budget_affinity_curve_anchored_and_antitone.1 120 100 (by norm_num),
   budget_affinity_curve_anchored_and_antitone.2.2.1 1 2 (by norm_num) (by norm_num),
   budget_affinity_curve_anchored_and_antitone.2.2.2 2 (by norm_num)⟩

/-! ### Conversation preference extraction (`_parse_conversation_preferences`,
lines 491-651) -/

/-- One conversation turn (`{'role': ..., 'content': ...}`). -/
structure Msg where
  role : String
  content : String
deriving DecidableEq

/-- The `filters` dict built by `_parse_conversation_preferences`.  The parser
only ever writes these seven keys; a `none` field is an absent key. -/
structure Filters where
  body_type : Option String := none
  fuel_preference : Option String := none
  min_mpg : Option ℚ := none
  min_horsepower : Option ℚ := none
  min_seating : Option ℚ := none
  drivetrain : Option String := none
  max_price : Option ℚ := none
deriving DecidableEq

/-- The `lifestyle_boosts` dict.  The parser only ever writes these ten
dimension keys. -/
structure Boosts where
  eco_conscious : Option ℚ := none
  tech_enthusiast : Option ℚ := none
  budget_conscious : Option ℚ := none
  family_friendly : Option ℚ := none
  safety_focused : Option ℚ := none
  performance : Option ℚ := none
  luxury : Option ℚ := none
  adventure : Option ℚ := none
  commuter : Option ℚ := none
  city_driving : Option ℚ := none
deriving DecidableEq

/-- Result of `_parse_conversation_preferences`. -/
structure ExtractedPreferences where
  filters : Filters
  lifestyle_boosts : Boosts
deriving DecidableEq

/-- Python `d.get(dim)` on the boosts dict (used by the profile-adjustment
loop in `find_matches`). -/
def boostOf (b : Boosts) (d : String) : Option ℚ :=
  if d = "eco_conscious" then b.eco_conscious
  else if d = "tech_enthusiast" then b.tech_enthusiast
  else if d = "budget_conscious" then b.budget_conscious
  else if d = "family_friendly" then b.family_friendly
  else if d = "safety_focused" then b.safety_focused
  else if d = "performance" then b.performance
  else if d = "luxury" then b.luxury
  else if d = "adventure" then b.adventure
  else if d = "commuter" then b.commuter
  else if d = "city_driving" then b.city_driving
  else none

/-- `any(keyword in conversation_text for keyword in keywords)`. -/
def hasAny (t : List Char) (ws : List String) : Bool :=
  ws.any (fun w => containsChars t w.data)

/-- The `body_type_keywords` table (lines 536-545), in source (dict insertion)
order. -/
def bodyTypeTable : List (String × List String) :=
  [("suv", ["suv", "crossover", "suvs"]),
   ("sedan", ["sedan", "sedans"]),
   ("truck", ["truck", "pickup", "trucks"]),
   ("hatchback", ["hatchback", "hatch"]),
   ("wagon", ["wagon", "estate"]),
   ("minivan", ["minivan", "van"]),
   ("coupe", ["coupe", "sports car", "sports-car", "sportscar", "2-door", "two door"]),
   ("convertible", ["convertible", "roadster", "cabriolet"])]

/-- Body-type detection loop (lines 547-551): the first category in table
order with any matching alias wins, and its upper-cased name is stored. -/
def detectBodyType (t : List Char) : Option String :=
  (bodyTypeTable.find? (fun p => hasAny t p.2)).map (fun p => toUpperStr p.1)

/-! Keyword-rule trigger conditions, one per `if any(...)` block of the
source, lines 554-615. -/

/-- Hybrid rule trigger (line 554). -/
def hybridFires (t : List Char) : Bool := hasAny t ["hybrid", "plug-in", "phev"]

/-- Electric rule trigger (line 559). -/
def electricFires (t : List Char) : Bool := hasAny t ["electric", "ev", "battery"]

/-- Fuel-efficiency rule trigger (line 565). -/
def fuelEffFires (t : List Char) : Bool :=
  hasAny t ["fuel efficient", "gas mileage", "mpg", "economical"]

/-- Family rule trigger (line 572). -/
def familyFires (t : List Char) : Bool := hasAny t ["family", "kids", "children", "baby"]

/-- Cargo/space rule trigger (line 578). -/
def spaceFires (t : List Char) : Bool := hasAny t ["cargo", "space", "room", "spacious"]

/-- Performance rule trigger (lines 583-584). -/
def performanceFires (t : List Char) : Bool :=
  hasAny t ["fast", "sporty", "performance", "quick", "speed", "hp", "horsepower",
            "sports car", "sport car"]

/-- Luxury rule trigger (line 590). -/
def luxuryFires (t : List Char) : Bool := hasAny t ["luxury", "premium", "high-end", "upscale"]

/-- Adventure/off-road rule trigger (line 596). -/
def adventureFires (t : List Char) : Bool :=
  hasAny t ["off-road", "offroad", "adventure", "trail", "4x4", "awd", "all-wheel"]

/-- Safety rule trigger (line 602). -/
def safetyFires (t : List Char) : Bool := hasAny t ["safe", "safety", "secure", "protection"]

/-- Technology rule trigger (line 607). -/
def techFires (t : List Char) : Bool :=
  hasAny t ["tech", "technology", "infotainment", "screen", "connectivity"]

/-- Commuter/city rule trigger (line 612). -/
def commuteFires (t : List Char) : Bool :=
  hasAny t ["commute", "commuting", "city", "urban", "parking"]

/-! ### Budget regex extraction (lines 617-646)

Each of the seven `price_patterns` regexes is embedded as a deterministic
scanner equivalent to `re.search` on it: positions are tried left to right,
and at a position the pattern's pieces (`literal`, `\s*`, `\$?`, greedy
`(\d+)`, `k?`, `,?`, `(\d{3})`) are matched as Python's engine does,
backtracking over the digit run only where the pattern `\$(\d+),?(\d{3})`
requires it.  The returned Bool records whether the optional `k` was part of
the match (the source tests `'k' in` the matched span; no other character of
any of these patterns can be a `k`). -/

/-- Match a literal at the head of the text, returning the remainder. -/
def dropLit : List Char → List Char → Option (List Char)
  | [], t => some t
  | _ :: _, [] => none
  | c :: cs, d :: ds => if c = d then dropLit cs ds else none

/-- Greedy `\s*`. -/
def dropSpaces (t : List Char) : List Char := t.dropWhile isSpaceChar

/-- Greedy `(\d+)` digit-run capture. -/
def takeDigits (t : List Char) : List Char := t.takeWhile isDigitChar

/-- Remainder after a greedy digit run. -/
def dropDigits (t : List Char) : List Char := t.dropWhile isDigitChar

/-- Patterns 1, 2, 3, 6 at one position: `lit` then `\s*\$?(\d+)k?`. -/
def matchShapeA (lit : List Char) (t : List Char) : Option (Nat × Bool) :=
  match dropLit lit t with
  | none => none
  | some r1 =>
    let r2 := dropSpaces r1
    let r3 := match r2 with
      | '$' :: r => r
      | _ => r2
    let ds := takeDigits r3
    if ds.isEmpty then none
    else
      let r4 := dropDigits r3
      match r4 with
      | 'k' :: _ => some (digitsToNat ds, true)
      | _ => some (digitsToNat ds, false)

/-- Patterns 4, 5 at one position: `\$(\d+)k?\s*` then `lit`. -/
def matchShapeB (lit : List Char) (t : List Char) : Option (Nat × Bool) :=
  match t with
  | '$' :: r1 =>
    let ds := takeDigits r1
    if ds.isEmpty then none
    else
      let r2 := dropDigits r1
      let kr : Bool × List Char := match r2 with
        | 'k' :: r => (true, r)
        | _ => (false, r2)
      match dropLit lit (dropSpaces kr.2) with
      | some _ => some (digitsToNat ds, kr.1)
      | none => none
  | _ => none

/-- Pattern 7 at one position: `\$(\d+),?(\d{3})`.  With a maximal digit run
`ds` after the `$`, either the comma alternative matches (at least three
digits follow a comma) and the groups concatenate to `ds ++` the first three
of them, or the engine backtracks the greedy `\d+` and splits `ds` itself
(possible exactly when `ds` has at least four digits, the groups then
concatenating back to `ds`). -/
def matchShapeC (t : List Char) : Option Nat :=
  match t with
  | '$' :: r1 =>
    let ds := takeDigits r1
    if ds.isEmpty then none
    else
      match dropDigits r1 with
      | ',' :: r3 =>
        let ds2 := takeDigits r3
        if 3 ≤ ds2.length then some (digitsToNat (ds ++ ds2.take 3))
        else if 4 ≤ ds.length then some (digitsToNat ds) else none
      | _ => if 4 ≤ ds.length then some (digitsToNat ds) else none
  | _ => none

/-- `re.search` position scan for a shape-A pattern. -/
def searchShapeA (lit : List Char) : List Char → Option (Nat × Bool)
  | [] => matchShapeA lit []
  | c :: rest =>
    match matchShapeA lit (c :: rest) with
    | some r => some r
    | none => searchShapeA lit rest

/-- `re.search` position scan for a shape-B pattern. -/
def searchShapeB (lit : List Char) : List Char → Option (Nat × Bool)
  | [] => matchShapeB lit []
  | c :: rest =>
    match matchShapeB lit (c :: rest) with
    | some r => some r
    | none => searchShapeB lit rest

/-- `re.search` position scan for pattern 7. -/
def searchShapeC : List Char → Option Nat
  | [] => matchShapeC []
  | c :: rest =>
    match matchShapeC (c :: rest) with
    | some r => some r
    | none => searchShapeC rest

/-- Scale a shape-A/B result by 1000 when the span contained a `k`
(lines 638-640). -/
def applyK (r : Nat × Bool) : Nat := if r.2 then r.1 * 1000 else r.1

/-- The pattern loop of lines 630-646: the first pattern with a match
anywhere wins; the comma pattern concatenates its two digit groups. -/
def findBudgetPrice (t : List Char) : Option Nat :=
  match searchShapeA "under".data t with
  | some r => some (applyK r)
  | none =>
  match searchShapeA "below".data t with
  | some r => some (applyK r)
  | none =>
  match searchShapeA "less than".data t with
  | some r => some (applyK r)
  | none =>
  match searchShapeB "or less".data t with
  | some r => some (applyK r)
  | none =>
  match searchShapeB "max".data t with
  | some r => some (applyK r)
  | none =>
  match searchShapeA "budget".data t with
  | some r => some (applyK r)
  | none =>
  match searchShapeC t with
  | some n => some n
  | none => none

/-! Each `if any(...)` block of lines 554-646 becomes one state-to-state rule
function; `applyRules` chains them in source order, so a later rule's dict
assignment overwrites an earlier rule's value for the same key. -/

/-- Hybrid block (lines 554-557). -/
def hybridRule (t : List Char) (s : ExtractedPreferences) : ExtractedPreferences :=
  if hybridFires t then
    { s with lifestyle_boosts := { s.lifestyle_boosts with eco_conscious := some 3 },
             filters := { s.filters with fuel_preference := some "hybrid" } }
  else s

/-- Electric block (lines 559-563). -/
def electricRule (t : List Char) (s : ExtractedPreferences) : ExtractedPreferences :=
  if electricFires t then
    { s with lifestyle_boosts :=
        { s.lifestyle_boosts with eco_conscious := some 4, tech_enthusiast := some 2 },
             filters := { s.filters with fuel_preference := some "electric" } }
  else s

/-- Fuel-efficiency block (lines 565-569). -/
def fuelEffRule (t : List Char) (s : ExtractedPreferences) : ExtractedPreferences :=
  if fuelEffFires t then
    { s with lifestyle_boosts :=
        { s.lifestyle_boosts with eco_conscious := some 2, budget_conscious := some 1 },
             filters := { s.filters with min_mpg := some 30 } }
  else s

/-- Family block (lines 572-576). -/
def familyRule (t : List Char) (s : ExtractedPreferences) : ExtractedPreferences :=
  if familyFires t then
    { s with lifestyle_boosts :=
        { s.lifestyle_boosts with family_friendly := some 3, safety_focused := some 2 },
             filters := { s.filters with min_seating := some 5 } }
  else s

/-- Cargo/space block (lines 578-580). -/
def spaceRule (t : List Char) (s : ExtractedPreferences) : ExtractedPreferences :=
  if spaceFires t then
    { s with lifestyle_boosts := { s.lifestyle_boosts with family_friendly := some 2 } }
  else s

/-- Performance block (lines 583-587). -/
def performanceRule (t : List Char) (s : ExtractedPreferences) : ExtractedPreferences :=
  if performanceFires t then
    { s with lifestyle_boosts := { s.lifestyle_boosts with performance := some 4 },
             filters := { s.filters with min_horsepower := some 200 } }
  else s

/-- Luxury block (lines 590-593). -/
def luxuryRule (t : List Char) (s : ExtractedPreferences) : ExtractedPreferences :=
  if luxuryFires t then
    { s with lifestyle_boosts :=
        { s.lifestyle_boosts with luxury := some 3, tech_enthusiast := some 1 } }
  else s

/-- Adventure block (lines 596-599). -/
def adventureRule (t : List Char) (s : ExtractedPreferences) : ExtractedPreferences :=
  if adventureFires t then
    { s with lifestyle_boosts := { s.lifestyle_boosts with adventure := some 3 },
             filters := { s.filters with drivetrain := some "AWD" } }
  else s

/-- Safety block (lines 602-604). -/
def safetyRule (t : List Char) (s : ExtractedPreferences) : ExtractedPreferences :=
  if safetyFires t then
    { s with lifestyle_boosts := { s.lifestyle_boosts with safety_focused := some 2 } }
  else s

/-- Technology block (lines 607-609). -/
def techRule (t : List Char) (s : ExtractedPreferences) : ExtractedPreferences :=
  if techFires t then
    { s with lifestyle_boosts := { s.lifestyle_boosts with tech_enthusiast := some 2 } }
  else s

/-- Commuter/city block (lines 612-615). -/
def commuteRule (t : List Char) (s : ExtractedPreferences) : ExtractedPreferences :=
  if commuteFires t then
    { s with lifestyle_boosts :=
        { s.lifestyle_boosts with commuter := some 2, city_driving := some 2 } }
  else s

/-- Budget extraction block (lines 617-646). -/
def priceRule (t : List Char) (s : ExtractedPreferences) : ExtractedPreferences :=
  match findBudgetPrice t with
  | some p => { s with filters := { s.filters with max_price := some (p : ℚ) } }
  | none => s

/-- The keyword/regex rule cascade of lines 536-651, applied to the
lower-cased joined user text: body-type detection first, then the boolean
keyword blocks in source order, then budget extraction. -/
def applyRules (t : List Char) : ExtractedPreferences :=
  priceRule t (commuteRule t (techRule t (safetyRule t (adventureRule t
    (luxuryRule t (performanceRule t (spaceRule t (familyRule t
      (fuelEffRule t (electricRule t (hybridRule t
        { filters := { body_type := detectBodyType t }, lifestyle_boosts := {} })))))))))))

/-- Lower-cased, space-joined text of the non-empty `user`-role turns
(lines 516-527). -/
def userText (ctx : List Msg) : List Char :=
  joinSpace (((ctx.filter (fun m => m.role = "user" && m.content ≠ "")).map
    (fun m => toLowerChars m.content.data)))

/-- `_parse_conversation_preferences(conversation_context)`: empty context or
whitespace-only user text yields empty preferences (lines 512-531), otherwise
the rule cascade runs on the joined text. -/
def parseConversationPreferences (ctx : List Msg) : ExtractedPreferences :=
  if ctx.isEmpty then { filters := {}, lifestyle_boosts := {} }
  else
    let t := userText ctx
    if isAllSpace t then { filters := {}, lifestyle_boosts := {} }
    else applyRules t

/-- The single-turn conversation of the C5 scenario. -/
def kidsBudgetTurns : List Msg :=
  [{ role := "user", content := "under $40k and I need room for my kids" }]

/-- C5: the turn "under $40k and I need room for my kids" extracts exactly
the filters `max_price = 40000` and `min_seating = 5`, and positive lifestyle
boosts for `family_friendly` and `safety_focused` (the space rule overwrites
the family rule's 3 with 2 on `family_friendly`). -/
theorem parse_under40k_kids_turn :
    (parseConversationPreferences kidsBudgetTurns).filters
        = { max_price := some 40000, min_seating := some 5 }
      ∧ ((parseConversationPreferences kidsBudgetTurns).lifestyle_boosts.family_friendly
            = some 2 ∧ (0 : ℚ) < 2)
      ∧ ((parseConversationPreferences kidsBudgetTurns).lifestyle_boosts.safety_focused
            = some 2 ∧ (0 : ℚ) < 2) := by
  decide

/-! Projection lemmas: how each rule block acts on the individual dict keys
that more than one rule can write. -/

theorem hybridRule_eco (t : List Char) (s : ExtractedPreferences) :
    (hybridRule t s).lifestyle_boosts.eco_conscious
      = if hybridFires t then some 3 else s.lifestyle_boosts.eco_conscious := by
  unfold hybridRule; split <;> rfl

theorem hybridRule_tech (t : List Char) (s : ExtractedPreferences) :
    (hybridRule t s).lifestyle_boosts.tech_enthusiast
      = s.lifestyle_boosts.tech_enthusiast := by
  unfold hybridRule; split <;> rfl

theorem hybridRule_family (t : List Char) (s : ExtractedPreferences) :
    (hybridRule t s).lifestyle_boosts.family_friendly
      = s.lifestyle_boosts.family_friendly := by
  unfold hybridRule; split <;> rfl

theorem hybridRule_safety (t : List Char) (s : ExtractedPreferences) :
    (hybridRule t s).lifestyle_boosts.safety_focused
      = s.lifestyle_boosts.safety_focused := by
  unfold hybridRule; split <;> rfl

theorem hybridRule_fuel (t : List Char) (s : ExtractedPreferences) :
    (hybridRule t s).filters.fuel_preference
      = if hybridFires t then some "hybrid" else s.filters.fuel_preference := by
  unfold hybridRule; split <;> rfl

theorem electricRule_eco (t : List Char) (s : ExtractedPreferences) :
    (electricRule t s).lifestyle_boosts.eco_conscious
      = if electricFires t then some 4 else s.lifestyle_boosts.eco_conscious := by
  unfold electricRule; split <;> rfl

theorem electricRule_tech (t : List Char) (s : ExtractedPreferences) :
    (electricRule t s).lifestyle_boosts.tech_enthusiast
      = if electricFires t then some 2 else s.lifestyle_boosts.tech_enthusiast := by
  unfold electricRule; split <;> rfl

theorem electricRule_family (t : List Char) (s : ExtractedPreferences) :
    (electricRule t s).lifestyle_boosts.family_friendly
      = s.lifestyle_boosts.family_friendly := by
  unfold electricRule; split <;> rfl

theorem electricRule_safety (t : List Char) (s : ExtractedPreferences) :
    (electricRule t s).lifestyle_boosts.safety_focused
      = s.lifestyle_boosts.safety_focused := by
  unfold electricRule; split <;> rfl

theorem electricRule_fuel (t : List Char) (s : ExtractedPreferences) :
    (electricRule t s).filters.fuel_preference
      = if electricFires t then some "electric" else s.filters.fuel_preference := by
  unfold electricRule; split <;> rfl

theorem fuelEffRule_eco (t : List Char) (s : ExtractedPreferences) :
    (fuelEffRule t s).lifestyle_boosts.eco_conscious
      = if fuelEffFires t then some 2 else s.lifestyle_boosts.eco_conscious := by
  unfold fuelEffRule; split <;> rfl

theorem fuelEffRule_tech (t : List Char) (s : ExtractedPreferences) :
    (fuelEffRule t s).lifestyle_boosts.tech_enthusiast
      = s.lifestyle_boosts.tech_enthusiast := by
  unfold fuelEffRule; split <;> rfl

theorem fuelEffRule_family (t : List Char) (s : ExtractedPreferences) :
    (fuelEffRule t s).lifestyle_boosts.family_friendly
      = s.lifestyle_boosts.family_friendly := by
  unfold fuelEffRule; split <;> rfl

theorem fuelEffRule_safety (t : List Char) (s : ExtractedPreferences) :
    (fuelEffRule t s).lifestyle_boosts.safety_focused
      = s.lifestyle_boosts.safety_focused := by
  unfold fuelEffRule; split <;> rfl

theorem fuelEffRule_fuel (t : List Char) (s : ExtractedPreferences) :
    (fuelEffRule t s).filters.fuel_preference = s.filters.fuel_preference := by
  unfold fuelEffRule; split <;> rfl

theorem familyRule_eco (t : List Char) (s : ExtractedPreferences) :
    (familyRule t s).lifestyle_boosts.eco_conscious
      = s.lifestyle_boosts.eco_conscious := by
  unfold familyRule; split <;> rfl

theorem familyRule_tech (t : List Char) (s : ExtractedPreferences) :
    (familyRule t s).lifestyle_boosts.tech_enthusiast
      = s.lifestyle_boosts.tech_enthusiast := by
  unfold familyRule; split <;> rfl

theorem familyRule_family (t : List Char) (s : ExtractedPreferences) :
    (familyRule t s).lifestyle_boosts.family_friendly
      = if familyFires t then some 3 else s.lifestyle_boosts.family_friendly := by
  unfold familyRule; split <;> rfl

theorem familyRule_safety (t : List Char) (s : ExtractedPreferences) :
    (familyRule t s).lifestyle_boosts.safety_focused
      = if familyFires t then some 2 else s.lifestyle_boosts.safety_focused := by
  unfold familyRule; split <;> rfl

theorem familyRule_fuel (t : List Char) (s : ExtractedPreferences) :
    (familyRule t s).filters.fuel_preference = s.filters.fuel_preference := by
  unfold familyRule; split <;> rfl

theorem spaceRule_eco (t : List Char) (s : ExtractedPreferences) :
    (spaceRule t s).lifestyle_boosts.eco_conscious
      = s.lifestyle_boosts.eco_conscious := by
  unfold spaceRule; split <;> rfl

theorem spaceRule_tech (t : List Char) (s : ExtractedPreferences) :
    (spaceRule t s).lifestyle_boosts.tech_enthusiast
      = s.lifestyle_boosts.tech_enthusiast := by
  unfold spaceRule; split <;> rfl

theorem spaceRule_family (t : List Char) (s : ExtractedPreferences) :
    (spaceRule t s).lifestyle_boosts.family_friendly
      = if spaceFires t then some 2 else s.lifestyle_boosts.family_friendly := by
  unfold spaceRule; split <;> rfl

theorem spaceRule_safety (t : List Char) (s : ExtractedPreferences) :
    (spaceRule t s).lifestyle_boosts.safety_focused
      = s.lifestyle_boosts.safety_focused := by
  unfold spaceRule; split <;> rfl

theorem spaceRule_fuel (t : List Char) (s : ExtractedPreferences) :
    (spaceRule t s).filters.fuel_preference = s.filters.fuel_preference := by
  unfold spaceRule; split <;> rfl

theorem performanceRule_eco (t : List Char) (s : ExtractedPreferences) :
    (performanceRule t s).lifestyle_boosts.eco_conscious
      = s.lifestyle_boosts.eco_conscious := by
  unfold performanceRule; split <;> rfl

theorem performanceRule_tech (t : List Char) (s : ExtractedPreferences) :
    (performanceRule t s).lifestyle_boosts.tech_enthusiast
      = s.lifestyle_boosts.tech_enthusiast := by
  unfold performanceRule; split <;> rfl

theorem performanceRule_family (t : List Char) (s : ExtractedPreferences) :
    (performanceRule t s).lifestyle_boosts.family_friendly
      = s.lifestyle_boosts.family_friendly := by
  unfold performanceRule; split <;> rfl

theorem performanceRule_safety (t : List Char) (s : ExtractedPreferences) :
    (performanceRule t s).lifestyle_boosts.safety_focused
      = s.lifestyle_boosts.safety_focused := by
  unfold performanceRule; split <;> rfl

theorem performanceRule_fuel (t : List Char) (s : ExtractedPreferences) :
    (performanceRule t s).filters.fuel_preference = s.filters.fuel_preference := by
  unfold performanceRule; split <;> rfl

theorem luxuryRule_eco (t : List Char) (s : ExtractedPreferences) :
    (luxuryRule t s).lifestyle_boosts.eco_conscious
      = s.lifestyle_boosts.eco_conscious := by
  unfold luxuryRule; split <;> rfl

theorem luxuryRule_tech (t : List Char) (s : ExtractedPreferences) :
    (luxuryRule t s).lifestyle_boosts.tech_enthusiast
      = if luxuryFires t then some 1 else s.lifestyle_boosts.tech_enthusiast := by
  unfold luxuryRule; split <;> rfl

theorem luxuryRule_family (t : List Char) (s : ExtractedPreferences) :
    (luxuryRule t s).lifestyle_boosts.family_friendly
      = s.lifestyle_boosts.family_friendly := by
  unfold luxuryRule; split <;> rfl

theorem luxuryRule_safety (t : List Char) (s : ExtractedPreferences) :
    (luxuryRule t s).lifestyle_boosts.safety_focused
      = s.lifestyle_boosts.safety_focused := by
  unfold luxuryRule; split <;> rfl

theorem luxuryRule_fuel (t : List Char) (s : ExtractedPreferences) :
    (luxuryRule t s).filters.fuel_preference = s.filters.fuel_preference := by
  unfold luxuryRule; split <;> rfl

theorem adventureRule_eco (t : List Char) (s : ExtractedPreferences) :
    (adventureRule t s).lifestyle_boosts.eco_conscious
      = s.lifestyle_boosts.eco_conscious := by
  unfold adventureRule; split <;> rfl

theorem adventureRule_tech (t : List Char) (s : ExtractedPreferences) :
    (adventureRule t s).lifestyle_boosts.tech_enthusiast
      = s.lifestyle_boosts.tech_enthusiast := by
  unfold adventureRule; split <;> rfl

theorem adventureRule_family (t : List Char) (s : ExtractedPreferences) :
    (adventureRule t s).lifestyle_boosts.family_friendly
      = s.lifestyle_boosts.family_friendly := by
  unfold adventureRule; split <;> rfl

theorem adventureRule_safety (t : List Char) (s : ExtractedPreferences) :
    (adventureRule t s).lifestyle_boosts.safety_focused
      = s.lifestyle_boosts.safety_focused := by
  unfold adventureRule; split <;> rfl

theorem adventureRule_fuel (t : List Char) (s : ExtractedPreferences) :
    (adventureRule t s).filters.fuel_preference = s.filters.fuel_preference := by
  unfold adventureRule; split <;> rfl

theorem safetyRule_eco (t : List Char) (s : ExtractedPreferences) :
    (safetyRule t s).lifestyle_boosts.eco_conscious
      = s.lifestyle_boosts.eco_conscious := by
  unfold safetyRule; split <;> rfl

theorem safetyRule_tech (t : List Char) (s : ExtractedPreferences) :
    (safetyRule t s).lifestyle_boosts.tech_enthusiast
      = s.lifestyle_boosts.tech_enthusiast := by
  unfold safetyRule; split <;> rfl

theorem safetyRule_family (t : List Char) (s : ExtractedPreferences) :
    (safetyRule t s).lifestyle_boosts.family_friendly
      = s.lifestyle_boosts.family_friendly := by
  unfold safetyRule; split <;> rfl

theorem safetyRule_safety (t : List Char) (s : ExtractedPreferences) :
    (safetyRule t s).lifestyle_boosts.safety_focused
      = if safetyFires t then some 2 else s.lifestyle_boosts.safety_focused := by
  unfold safetyRule; split <;> rfl

theorem safetyRule_fuel (t : List Char) (s : ExtractedPreferences) :
    (safetyRule t s).filters.fuel_preference = s.filters.fuel_preference := by
  unfold safetyRule; split <;> rfl

theorem techRule_eco (t : List Char) (s : ExtractedPreferences) :
    (techRule t s).lifestyle_boosts.eco_conscious
      = s.lifestyle_boosts.eco_conscious := by
  unfold techRule; split <;> rfl

theorem techRule_tech (t : List Char) (s : ExtractedPreferences) :
    (techRule t s).lifestyle_boosts.tech_enthusiast
      = if techFires t then some 2 else s.lifestyle_boosts.tech_enthusiast := by
  unfold techRule; split <;> rfl

theorem techRule_family (t : List Char) (s : ExtractedPreferences) :
    (techRule t s).lifestyle_boosts.family_friendly
      = s.lifestyle_boosts.family_friendly := by
  unfold techRule; split <;> rfl

theorem techRule_safety (t : List Char) (s : ExtractedPreferences) :
    (techRule t s).lifestyle_boosts.safety_focused
      = s.lifestyle_boosts.safety_focused := by
  unfold techRule; split <;> rfl

theorem techRule_fuel (t : List Char) (s : ExtractedPreferences) :
    (techRule t s).filters.fuel_preference = s.filters.fuel_preference := by
  unfold techRule; split <;> rfl

theorem commuteRule_eco (t : List Char) (s : ExtractedPreferences) :
    (commuteRule t s).lifestyle_boosts.eco_conscious
      = s.lifestyle_boosts.eco_conscious := by
  unfold commuteRule; split <;> rfl

theorem commuteRule_tech (t : List Char) (s : ExtractedPreferences) :
    (commuteRule t s).lifestyle_boosts.tech_enthusiast
      = s.lifestyle_boosts.tech_enthusiast := by
  unfold commuteRule; split <;> rfl

theorem commuteRule_family (t : List Char) (s : ExtractedPreferences) :
    (commuteRule t s).lifestyle_boosts.family_friendly
      = s.lifestyle_boosts.family_friendly := by
  unfold commuteRule; split <;> rfl

theorem commuteRule_safety (t : List Char) (s : ExtractedPreferences) :
    (commuteRule t s).lifestyle_boosts.safety_focused
      = s.lifestyle_boosts.safety_focused := by
  unfold commuteRule; split <;> rfl

theorem commuteRule_fuel (t : List Char) (s : ExtractedPreferences) :
    (commuteRule t s).filters.fuel_preference = s.filters.fuel_preference := by
  unfold commuteRule; split <;> rfl

theorem priceRule_eco (t : List Char) (s : ExtractedPreferences) :
    (priceRule t s).lifestyle_boosts.eco_conscious
      = s.lifestyle_boosts.eco_conscious := by
  unfold priceRule; split <;> rfl

theorem priceRule_tech (t : List Char) (s : ExtractedPreferences) :
    (priceRule t s).lifestyle_boosts.tech_enthusiast
      = s.lifestyle_boosts.tech_enthusiast := by
  unfold priceRule; split <;> rfl

theorem priceRule_family (t : List Char) (s : ExtractedPreferences) :
    (priceRule t s).lifestyle_boosts.family_friendly
      = s.lifestyle_boosts.family_friendly := by
  unfold priceRule; split <;> rfl

theorem priceRule_safety (t : List Char) (s : ExtractedPreferences) :
    (priceRule t s).lifestyle_boosts.safety_focused
      = s.lifestyle_boosts.safety_focused := by
  unfold priceRule; split <;> rfl

theorem priceRule_fuel (t : List Char) (s : ExtractedPreferences) :
    (priceRule t s).filters.fuel_preference = s.filters.fuel_preference := by
  unfold priceRule; split <;> rfl

/-- A `find?` returns the element at the first index whose predicate holds. -/
theorem find?_first {α : Type} (p : α → Bool) (d : α) :
    ∀ (l : List α) (i : Nat), i < l.length → p (l.getD i d) = true →
      (∀ j, j < i → p (l.getD j d) = false) → l.find? p = some (l.getD i d) := by
  intro l
  induction l with
  | nil => intro i hi _ _; simp at hi
  | cons a tl ih =>
    intro i hi hp hprev
    cases i with
    | zero =>
      simp only [List.getD_cons_zero] at hp ⊢
      simp [List.find?_cons, hp]
    | succ n =>
      have h0 : p a = false := by
        have := hprev 0 (Nat.succ_pos n)
        simpa using this
      simp only [List.getD_cons_succ] at hp ⊢
      rw [List.find?_cons, h0]
      exact ih n (by simpa using hi) hp (fun j hj => by
        have := hprev (j + 1) (by omega)
        simpa using this)

/-- C6: body-type detection picks the first matching category of the fixed
table (so at most one body-type filter is ever produced), and when several
keyword rules write the same lifestyle dimension or filter key, the
later-evaluated rule wins — shown by the closed-form value of every key that
more than one rule writes (`eco_conscious`, `fuel_preference`,
`family_friendly`, `safety_focused`, `tech_enthusiast`), with the ifs ordered
from the last rule down to the first. -/
theorem body_type_first_match_and_rule_overwrites (t : List Char) :
    (∀ i, i < bodyTypeTable.length →
        hasAny t (bodyTypeTable.getD i ("", [])).2 = true →
        (∀ j, j < i → hasAny t (bodyTypeTable.getD j ("", [])).2 = false) →
        detectBodyType t = some (toUpperStr (bodyTypeTable.getD i ("", [])).1))
    ∧ (applyRules t).lifestyle_boosts.eco_conscious
        = (if fuelEffFires t then some 2 else if electricFires t then some 4
           else if hybridFires t then some 3 else none)
    ∧ (applyRules t).filters.fuel_preference
        = (if electricFires t then some "electric"
           else if hybridFires t then some "hybrid" else none)
    ∧ (applyRules t).lifestyle_boosts.family_friendly
        = (if spaceFires t then some 2 else if familyFires t then some 3 else none)
    ∧ (applyRules t).lifestyle_boosts.safety_focused
        = (if safetyFires t then some 2 else if familyFires t then some 2 else none)
    ∧ (applyRules t).lifestyle_boosts.tech_enthusiast
        = (if techFires t then some 2 else if luxuryFires t then some 1
           else if electricFires t then some 2 else none) := by
  refine ⟨?_, ?_, ?_, ?_, ?_, ?_⟩
  · intro i hi hp hprev
    unfold detectBodyType
    rw [find?_first (fun p => hasAny t p.2) ("", []) bodyTypeTable i hi hp hprev]
    rfl
  · simp only [applyRules, priceRule_eco, commuteRule_eco, techRule_eco, safetyRule_eco,
      adventureRule_eco, luxuryRule_eco, performanceRule_eco, spaceRule_eco, familyRule_eco,
      fuelEffRule_eco, electricRule_eco, hybridRule_eco]
  · simp only [applyRules, priceRule_fuel, commuteRule_fuel, techRule_fuel, safetyRule_fuel,
      adventureRule_fuel, luxuryRule_fuel, performanceRule_fuel, spaceRule_fuel,
      familyRule_fuel, fuelEffRule_fuel, electricRule_fuel, hybridRule_fuel]
  · simp only [applyRules, priceRule_family, commuteRule_family, techRule_family,
      safetyRule_family, adventureRule_family, luxuryRule_family, performanceRule_family,
      spaceRule_family, familyRule_family, fuelEffRule_family, electricRule_family,
      hybridRule_family]
  · simp only [applyRules, priceRule_safety, commuteRule_safety, techRule_safety,
      safetyRule_safety, adventureRule_safety, luxuryRule_safety, performanceRule_safety,
      spaceRule_safety, familyRule_safety, fuelEffRule_safety, electricRule_safety,
      hybridRule_safety]
  · simp only [applyRules, priceRule_tech, commuteRule_tech, techRule_tech, safetyRule_tech,
      adventureRule_tech, luxuryRule_tech, performanceRule_tech, spaceRule_tech,
      familyRule_tech, fuelEffRule_tech, electricRule_tech, hybridRule_tech]

/-- Witness for `body_type_first_match_and_rule_overwrites`: in
"suv or sedan please" both the suv and sedan categories match, and the first
(suv) wins; in "family room" both the family and the space rules fire, and
the later space rule's value 2 overwrites the family rule's 3. -/
theorem body_type_first_match_witness :
    detectBodyType ("suv or sedan please".data) = some "SUV"
      ∧ (applyRules ("family room".data)).lifestyle_boosts.family_friendly = some 2 := by
  constructor
  · rw [(body_type_first_match_and_rule_overwrites ("suv or sedan please".data)).1 0
      (by decide) (by decide) (fun j hj => absurd hj (Nat.not_lt_zero j))]
    decide
  · rw [(body_type_first_match_and_rule_overwrites ("family room".data)).2.2.2.1]
    decide

/-! ### Candidate data model (shape of the `cars.json` records the engine
reads; §3 of the spec).  Numeric fields are total: the catalog loader
supplies every field the engine accesses (missing optional numerics are
defaulted at load time per §6). -/

/-- `car['basic_info']` (the fields the engine reads). -/
structure BasicInfo where
  make : String
  model : String
  body_type : String
  msrp : ℚ
  image_url : String
deriving DecidableEq

/-- `car['specifications']` (the fields the engine reads). -/
structure Specs where
  mpg_combined : ℚ
  horsepower : ℚ
  seating_capacity : ℚ
  cargo_space : ℚ
  engine : String
  drivetrain : String
deriving DecidableEq

/-- `car['features']`. -/
structure Features where
  safety : List String
  technology : List String
  comfort : List String
  entertainment : List String
deriving DecidableEq

/-- `car['costs']`. -/
structure Costs where
  insurance_annual_estimate : ℚ
  maintenance_annual_estimate : ℚ
deriving DecidableEq

/-- One candidate record of the catalog. -/
structure Car where
  id : String
  basic_info : BasicInfo
  specifications : Specs
  features : Features
  lifestyle_scores : List (String × ℚ)
  costs : Costs
  pros : List String
  cons : List String
deriving DecidableEq

/-- The `dimension_importance` table built in `__init__` (lines 29-40). -/
def dimensionImportance : List (String × ℚ) :=
  [("safety_focused", 6 / 5), ("budget_conscious", 23 / 20), ("eco_conscious", 11 / 10),
   ("family_friendly", 11 / 10), ("commuter", 1), ("performance", 19 / 20),
   ("tech_enthusiast", 9 / 10), ("luxury", 17 / 20), ("city_driving", 1),
   ("adventure", 9 / 10)]

/-- `self.dimension_importance.get(dimension, 1.0)` (line 177). -/
def importanceOf (d : String) : ℚ := (alookup dimensionImportance d).getD 1

/-! ### Cosine similarity (`_calculate_cosine_similarity`, lines 153-192) -/

/-- The dimension loop of lines 174-184: for each profile dimension also
present in the car's scores, the importance-scaled pair
`(car_val, user_val)`. -/
def matchedPairs (carScores userProfile : List (String × ℚ)) : List (ℚ × ℚ) :=
  userProfile.filterMap (fun p =>
    (alookup carScores p.1).map (fun cv => (cv * importanceOf p.1, p.2 * importanceOf p.1)))

/-- Accumulated `dot_product`. -/
def dotSum (l : List (ℚ × ℚ)) : ℚ := (l.map (fun q => q.1 * q.2)).sum

/-- Accumulated `car_magnitude` (sum of squared scaled car values). -/
def carMagSum (l : List (ℚ × ℚ)) : ℚ := (l.map (fun q => q.1 ^ 2)).sum

/-- Accumulated `user_magnitude`. -/
def userMagSum (l : List (ℚ × ℚ)) : ℚ := (l.map (fun q => q.2 ^ 2)).sum

/-- `_calculate_cosine_similarity(car_scores, user_profile)`: the guarded
`dot / (sqrt(cm) * sqrt(um)) * 100`, and 0 when either magnitude is zero.
`math.sqrt` forces this single scorer into `ℝ`. -/
noncomputable def calculateCosineSimilarity (carScores userProfile : List (String × ℚ)) : ℝ :=
  let l := matchedPairs carScores userProfile
  if 0 < carMagSum l ∧ 0 < userMagSum l then
    ((dotSum l : ℝ) / (Real.sqrt (carMagSum l) * Real.sqrt (userMagSum l))) * 100
  else 0

/-! ### Feature score (`_calculate_feature_score`, lines 245-303) -/

/-- `_calculate_feature_score(car, user_profile)`. -/
def calculateFeatureScore (car : Car) (userProfile : List (String × ℚ)) : ℚ :=
  let specs := car.specifications
  let ecoW := profGet userProfile "eco_conscious" / 10
  let budgetW := profGet userProfile "budget_conscious" / 10
  let commuterW := profGet userProfile "commuter" / 10
  let mpgW := (ecoW + budgetW + commuterW) / 3
  let mpgScore := min 100 (specs.mpg_combined / 50 * 100)
  let perfW := profGet userProfile "performance" / 10
  let hpScore := min 100 (specs.horsepower / 400 * 100)
  let familyW := profGet userProfile "family_friendly" / 10
  let spaceScore := min 100 (specs.seating_capacity * 10 + specs.cargo_space * 2)
  let safetyW := profGet userProfile "safety_focused" / 10
  let safetyScore := min 100 ((car.features.safety.length : ℚ) / 10 * 100)
  let techW := profGet userProfile "tech_enthusiast" / 10
  let techScore := min 100 ((car.features.technology.length : ℚ) / 8 * 100)
  let score := mpgScore * mpgW + hpScore * perfW + spaceScore * familyW
    + safetyScore * safetyW + techScore * techW
  let weightSum := mpgW + perfW + familyW + safetyW + techW
  if 0 < weightSum then score / weightSum else 50

/-! ### Value score (`_calculate_value_score`, lines 305-347) -/

/-- `_calculate_value_score(car)`. -/
def calculateValueScore (car : Car) : ℚ :=
  let price := car.basic_info.msrp
  let specs := car.specifications
  let costs := car.costs
  let totalFeatures : ℚ := (car.features.safety.length : ℚ)
    + (car.features.technology.length : ℚ) + (car.features.comfort.length : ℚ)
    + (car.features.entertainment.length : ℚ)
  let featureDensity := totalFeatures / (price / 10000)
  let featureScore := min 100 (featureDensity * 15)
  let annualCost := costs.insurance_annual_estimate + costs.maintenance_annual_estimate
    + 15000 / specs.mpg_combined * (7 / 2)
  let costEfficiency := max 0 (100 - (annualCost - 2000) / 50)
  let mpgValue := specs.mpg_combined / (price / 10000)
  let mpgScore := min 100 (mpgValue * 20)
  featureScore * (2 / 5) + costEfficiency * (3 / 10) + mpgScore * (3 / 10)

/-! ### Match reasons (`_generate_match_reasons`, lines 349-393) -/

/-- Python `str.title()` on ASCII text: the first letter of each letter run
is upper-cased, the rest lower-cased. -/
def titleGo : List Char → Bool → List Char
  | [], _ => []
  | c :: t, prevAlpha =>
    (if isAlphaChar c then (if prevAlpha then c.toLower else c.toUpper) else c)
      :: titleGo t (isAlphaChar c)

/-- `dimension.replace('_', ' ').title()` (line 375). -/
def dimTitle (s : String) : String :=
  ⟨titleGo (s.data.map (fun c => if c = '_' then ' ' else c)) false⟩

/-- `_generate_match_reasons(car, user_profile, score)` (the `score` argument
is unused by the source body as well). -/
def generateMatchReasons (car : Car) (userProfile : List (String × ℚ)) (_score : ℝ) :
    List String :=
  let topPriorities :=
    (List.insertionSort (fun a b : String × ℚ => b.2 ≤ a.2) userProfile).take 3
  let reasons := topPriorities.foldl (fun acc p =>
    if 7 ≤ p.2 then
      if 7 ≤ (alookup car.lifestyle_scores p.1).getD 5 then
        acc ++ ["Strong " ++ dimTitle p.1 ++ " match"]
      else acc
    else acc) []
  let reasons := if car.basic_info.msrp < 30000 then reasons ++ ["Great value"]
    else if 50000 < car.basic_info.msrp then reasons ++ ["Premium features"] else reasons
  let reasons := if 35 < car.specifications.mpg_combined then
    reasons ++ ["Excellent fuel economy"] else reasons
  let reasons := if 300 < car.specifications.horsepower then
    reasons ++ ["High performance"] else reasons
  let reasons := if 5 < car.features.safety.length then
    reasons ++ ["Advanced safety tech"] else reasons
  reasons.take 4

/-! ### Conversation hard filters (`_meets_conversation_filters`,
lines 653-707) -/

/-- `_meets_conversation_filters(car, filters)`: every present filter must
pass (the source returns `False` at the first failing check; with no filters
present every branch is skipped and the result is `True`, which also covers
the `if not filters` fast path). -/
def meetsConversationFilters (car : Car) (f : Filters) : Bool :=
  (match f.body_type with
    | none => true
    | some bt => decide (toUpperStr car.basic_info.body_type = toUpperStr bt)) &&
  (match f.min_mpg with
    | none => true
    | some m => decide (m ≤ car.specifications.mpg_combined)) &&
  (match f.min_horsepower with
    | none => true
    | some m => decide (m ≤ car.specifications.horsepower)) &&
  (match f.min_seating with
    | none => true
    | some m => decide (m ≤ car.specifications.seating_capacity)) &&
  (match f.fuel_preference with
    | none => true
    | some fp =>
      let fpl := toLowerStr fp
      let eng := toLowerStr car.specifications.engine
      if fpl = "hybrid" then strContains eng "hybrid"
      else if fpl = "electric" then strContains eng "electric" || strContains eng "ev"
      else true) &&
  (match f.drivetrain with
    | none => true
    | some dt => strContains (toUpperStr car.specifications.drivetrain) (toUpperStr dt)) &&
  (match f.max_price with
    | none => true
    | some mp => decide (car.basic_info.msrp ≤ mp))

/-! ### Ranking (`find_matches`, lines 58-151) -/

/-- The profile-adjustment loop of lines 85-89: start from a copy of the
profile and, for each boosted dimension already present in it, clamp
`value + boost` at 10.  Each dimension is written at most once, so the
boost-dict iteration order is immaterial and the update is expressed
per profile entry. -/
def adjustProfile (profile : List (String × ℚ)) (b : Boosts) : List (String × ℚ) :=
  profile.map (fun p =>
    match boostOf b p.1 with
    | some boost => (p.1, min 10 (p.2 + boost))
    | none => p)

/-- `round(x, 2)` on the score scale. -/
noncomputable def round2 (x : ℝ) : ℝ := (round (x * 100) : ℝ) / 100

/-- `score_breakdown` of an enriched result (lines 135-140). -/
structure Breakdown where
  lifestyle_match : ℝ
  budget_fit : ℝ
  feature_quality : ℝ
  value_score : ℝ

/-- A catalog record enriched with `match_score`, `score_breakdown` and
`match_reasons` (lines 132-143). -/
structure ScoredCar where
  car : Car
  match_score : ℝ
  score_breakdown : Breakdown
  match_reasons : List String

/-- The loop body of lines 97-145 for one surviving car: the four sub-scores
and the weighted composite.  `budget_score` reproduces the call-site guard
`... if budget else 0.85` (line 113): the affinity function is only reached
for a truthy (non-zero) budget value. -/
noncomputable def scoreCar (car : Car) (adjusted : List (String × ℚ)) (budget : Option ℤ) :
    ScoredCar :=
  let cosineScore : ℝ := calculateCosineSimilarity car.lifestyle_scores adjusted
  let budgetScore : ℝ :=
    match budget with
    | some b => if b ≠ 0 then ((calculateBudgetAffinity car.basic_info.msrp b : ℚ) : ℝ)
        else 0.85
    | none => 0.85
  let featureScore : ℝ := ((calculateFeatureScore car adjusted : ℚ) : ℝ)
  let valueScore : ℝ := ((calculateValueScore car : ℚ) : ℝ)
  let composite : ℝ := cosineScore * 0.40 + budgetScore * 0.30 + featureScore * 0.20
    + valueScore * 0.10
  { car := car
    match_score := round2 composite
    score_breakdown :=
      { lifestyle_match := round2 cosineScore
        budget_fit := round2 budgetScore
        feature_quality := round2 featureScore
        value_score := round2 valueScore }
    match_reasons := generateMatchReasons car adjusted composite }

/-- The filter-and-score pass of `find_matches` (lines 94-145), in catalog
order. -/
noncomputable def scoredList (cars : List Car) (profile : List (String × ℚ))
    (budget : Option ℤ) (ctx : List Msg) : List ScoredCar :=
  let prefs := parseConversationPreferences ctx
  let adjusted := adjustProfile profile prefs.lifestyle_boosts
  (cars.filter (fun c => meetsConversationFilters c prefs.filters)).map
    (fun car => scoreCar car adjusted budget)

/-- The descending-score ordering used by
`matches.sort(key=lambda x: x['match_score'], reverse=True)`. -/
def scoreGE (a b : ScoredCar) : Prop := b.match_score ≤ a.match_score

noncomputable instance : DecidableRel scoreGE := fun a b =>
  Real.decidableLE b.match_score a.match_score

instance : IsTotal ScoredCar scoreGE :=
  ⟨fun a b => by unfold scoreGE; exact le_total _ _⟩

instance : IsTrans ScoredCar scoreGE :=
  ⟨fun _ _ _ h1 h2 => by unfold scoreGE at *; exact le_trans h2 h1⟩

/-- `find_matches(lifestyle_profile, budget, conversation_context, top_n)`
(lines 58-151): score the surviving candidates, sort them stably by
descending rounded composite score (Python's `list.sort` is stable and
`reverse=True` does not reorder ties), and truncate to the first `top_n`. -/
noncomputable def findMatches (cars : List Car) (profile : List (String × ℚ))
    (budget : Option ℤ) (ctx : List Msg) (topN : ℕ) : List ScoredCar :=
  (List.insertionSort scoreGE (scoredList cars profile budget ctx)).take topN

/-- The `.car` field of a scored record is the catalog record it was built
from. -/
theorem scoreCar_car (car : Car) (adjusted : List (String × ℚ)) (budget : Option ℤ) :
    (scoreCar car adjusted budget).car = car := rfl

/-- C3: `rank` returns at most `topN` results, and every returned candidate
passes every active conversation-extracted filter. -/
theorem rank_length_le_and_filtered (cars : List Car) (profile : List (String × ℚ))
    (budget : Option ℤ) (ctx : List Msg) (topN : ℕ) :
    (findMatches cars profile budget ctx topN).length ≤ topN
      ∧ (findMatches cars profile budget ctx topN).all
          (fun sc => meetsConversationFilters sc.car
            (parseConversationPreferences ctx).filters) = true := by
  constructor
  · exact List.length_take_le topN _
  · rw [List.all_eq_true]
    intro sc hsc
    have h1 : sc ∈ List.insertionSort scoreGE (scoredList cars profile budget ctx) :=
      (List.take_sublist topN _).subset hsc
    have h2 : sc ∈ scoredList cars profile budget ctx :=
      (List.perm_insertionSort scoreGE _).subset h1
    unfold scoredList at h2
    simp only [List.mem_map, List.mem_filter] at h2
    obtain ⟨car, ⟨_, hmeets⟩, hsc_eq⟩ := h2
    rw [← hsc_eq, scoreCar_car]
    exact hmeets

/-- Inserting `a` does not disturb a filter when, if `a` itself passes the
filter, every element it is inserted ahead of fails it. -/
theorem filter_orderedInsert {α : Type} (r : α → α → Prop) [DecidableRel r]
    (p : α → Bool) (a : α) :
    ∀ l : List α, (p a = true → ∀ b ∈ l, ¬ r a b → p b = false) →
      (List.orderedInsert r a l).filter p
        = if p a then a :: l.filter p else l.filter p := by
  intro l
  induction l with
  | nil =>
    intro _
    cases hpa : p a <;> simp [List.orderedInsert, hpa]
  | cons b t ih =>
    intro h
    by_cases hr : r a b
    · rw [List.orderedInsert_of_le r t hr]
      cases hpa : p a <;> simp [List.filter_cons, hpa]
    · cases hpa : p a with
      | false =>
        have ih1 := ih (fun hcontr => absurd hcontr (by simp [hpa]))
        rw [hpa] at ih1
        simp only [Bool.false_eq_true, if_false] at ih1
        simp [List.orderedInsert, hr, List.filter_cons, hpa, ih1]
      | true =>
        have hb : p b = false := h hpa b (List.mem_cons_self b t) hr
        have ih1 := ih (fun _ c hc hrc => h hpa c (List.mem_cons_of_mem b hc) hrc)
        rw [hpa] at ih1
        simp only [if_true] at ih1
        simp [List.orderedInsert, hr, List.filter_cons, hpa, hb, ih1]

/-- Stability of the descending sort: filtering the sorted list down to the
entries of one score value yields exactly the same sequence as filtering the
unsorted list, because an element only ever passes over strictly
greater-scored ones. -/
theorem filter_score_insertionSort (s : ℝ) :
    ∀ l : List ScoredCar,
      (List.insertionSort scoreGE l).filter (fun x => decide (x.match_score = s))
        = l.filter (fun x => decide (x.match_score = s)) := by
  intro l
  induction l with
  | nil => rfl
  | cons a t ih =>
    have hkey : (fun x : ScoredCar => decide (x.match_score = s)) a = true →
        ∀ b ∈ List.insertionSort scoreGE t, ¬ scoreGE a b →
          (fun x : ScoredCar => decide (x.match_score = s)) b = false := by
      intro hpa b _ hnr
      have ha : a.match_score = s := by simpa using hpa
      unfold scoreGE at hnr
      have hlt : a.match_score < b.match_score := lt_of_not_le hnr
      simp only [decide_eq_false_iff_not]
      intro hb
      rw [ha, hb] at hlt
      exact lt_irrefl s hlt
    have hstep : List.insertionSort scoreGE (a :: t)
        = List.orderedInsert scoreGE a (List.insertionSort scoreGE t) := rfl
    rw [hstep, filter_orderedInsert scoreGE _ a (List.insertionSort scoreGE t) hkey, ih,
      List.filter_cons]

/-- C4: the ranked list is pairwise descending in the rounded composite score,
and it is a stable truncation: for every score value `s`, the ranked entries
with score `s` are an initial segment of the catalog-ordered scored entries
with score `s` (ties keep original catalog order; no secondary key). -/
theorem rank_sorted_desc_and_stable (cars : List Car) (profile : List (String × ℚ))
    (budget : Option ℤ) (ctx : List Msg) (topN : ℕ) :
    List.Pairwise scoreGE (findMatches cars profile budget ctx topN)
      ∧ ∀ s : ℝ, ∃ rest : List ScoredCar,
        (scoredList cars profile budget ctx).filter (fun x => decide (x.match_score = s))
          = (findMatches cars profile budget ctx topN).filter
              (fun x => decide (x.match_score = s)) ++ rest := by
  constructor
  · exact List.Pairwise.sublist (List.take_sublist topN _)
      (List.sorted_insertionSort scoreGE _)
  · intro s
    refine ⟨(List.drop topN (List.insertionSort scoreGE
        (scoredList cars profile budget ctx))).filter
          (fun x => decide (x.match_score = s)), ?_⟩
    unfold findMatches
    rw [← List.filter_append, List.take_append_drop, filter_score_insertionSort]

/-- A concrete, fully populated candidate for closed-instance theorems. -/
def demoCar : Car :=
  { id := "demo-1"
    basic_info :=
      { make := "Acme", model := "Roamer", body_type := "SUV", msrp := 30000
        image_url := "https://example.com/roamer.png" }
    specifications :=
      { mpg_combined := 30, horsepower := 200, seating_capacity := 5, cargo_space := 20
        engine := "2.0L I4", drivetrain := "AWD" }
    features :=
      { safety := ["abs", "lane assist"], technology := ["nav"], comfort := ["heated seats"]
        entertainment := ["audio"] }
    lifestyle_scores :=
      [("family_friendly", 8), ("adventure", 6), ("eco_conscious", 6), ("luxury", 4),
       ("performance", 5), ("budget_conscious", 7), ("city_driving", 6), ("commuter", 6),
       ("tech_enthusiast", 5), ("safety_focused", 8)]
    costs := { insurance_annual_estimate := 1500, maintenance_annual_estimate := 500 }
    pros := ["roomy"], cons := ["bland"] }

/-- A neutral concrete profile: all ten dimensions at 5. -/
def demoProfile : List (String × ℚ) :=
  [("family_friendly", 5), ("adventure", 5), ("eco_conscious", 5), ("luxury", 5),
   ("performance", 5), ("budget_conscious", 5), ("city_driving", 5), ("commuter", 5),
   ("tech_enthusiast", 5), ("safety_focused", 5)]

/-- C1 (bug evidence): ranking with an absent budget reports `budget_fit`
0.85 — the bare fraction, not the 0-100-scale neutral score — because the
call site `... if budget else 0.85` (line 113) bypasses
`_calculate_budget_affinity`, whose own no-budget default (taken for
non-positive budget values) is 85.  The same happens for `budget = 0`,
which is falsy for the call-site guard. -/
theorem rank_no_budget_fit_is_fraction :
    ((findMatches [demoCar] demoProfile none [] 1).map
        (fun sc => sc.score_breakdown.budget_fit)) = [(0.85 : ℝ)]
      ∧ calculateBudgetAffinity demoCar.basic_info.msrp 0 = 85
      ∧ (0.85 : ℝ) ≠ 85 := by
  refine ⟨?_, by norm_num [calculateBudgetAffinity], by norm_num⟩
  have h1 : (findMatches [demoCar] demoProfile none [] 1).map
      (fun sc => sc.score_breakdown.budget_fit) = [round2 0.85] := rfl
  have h2 : round2 (0.85 : ℝ) = 0.85 := by
    unfold round2
    rw [show (0.85 : ℝ) * 100 = ((85 : ℤ) : ℝ) by norm_num, round_intCast]
    norm_num
  rw [h1, h2]

/-! ### Lookup and comparison (`get_car_by_id` lines 446-459, `compare_cars`
lines 395-444) -/

/-- `get_car_by_id(car_id)`: first linear-scan match, `None` when absent. -/
def getCarById (cars : List Car) (carId : String) : Option Car :=
  match cars with
  | [] => none
  | c :: t => if c.id = carId then some c else getCarById t carId

/-- One entry of the `"cars"` list built by `compare_cars` (lines 419-428). -/
structure CompCar where
  id : String
  name : String
  price : ℚ
  image : String
  specs : Specs
  pros : List String
  cons : List String
  features : Features
deriving DecidableEq

/-- One entry of a `"categories"` list (lines 431-442). -/
structure CatItem where
  car : String
  value : ℚ
deriving DecidableEq

/-- The comparison dict of lines 405-414 (`safety` and `space` are
initialised but never filled by the source). -/
structure Comparison where
  cars : List CompCar
  price : List CatItem
  fuel_efficiency : List CatItem
  performance : List CatItem
  safety : List CatItem
  space : List CatItem
deriving DecidableEq

/-- `f"{make} {model}"`. -/
def carName (c : Car) : String := c.basic_info.make ++ " " ++ c.basic_info.model

/-- The `"cars"` entry built for one found id (lines 419-428). -/
def compEntry (carId : String) (car : Car) : CompCar :=
  { id := carId, name := carName car, price := car.basic_info.msrp
    image := car.basic_info.image_url, specs := car.specifications
    pros := car.pros, cons := car.cons, features := car.features }

/-- One iteration of the `for car_id in car_ids` loop (lines 416-442): a
missing id contributes nothing. -/
def compareStep (cars : List Car) (comp : Comparison) (carId : String) : Comparison :=
  match getCarById cars carId with
  | none => comp
  | some car =>
    { comp with
      cars := comp.cars ++ [compEntry carId car]
      price := comp.price ++ [{ car := carName car, value := car.basic_info.msrp }]
      fuel_efficiency := comp.fuel_efficiency
        ++ [{ car := carName car, value := car.specifications.mpg_combined }]
      performance := comp.performance
        ++ [{ car := carName car, value := car.specifications.horsepower }] }

/-- The initial comparison dict (lines 405-414). -/
def emptyComparison : Comparison :=
  { cars := [], price := [], fuel_efficiency := [], performance := []
    safety := [], space := [] }

/-- `compare_cars(car_ids)`. -/
def compareCars (cars : List Car) (carIds : List String) : Comparison :=
  carIds.foldl (compareStep cars) emptyComparison

/-- The `"cars"` entries contributed by a list of ids. -/
def compareEntries (cars : List Car) (carIds : List String) : List CompCar :=
  carIds.filterMap (fun i => (getCarById cars i).map (compEntry i))

/-- The comparison loop appends exactly the entries of the found ids, in
id-list order, to whatever is already accumulated. -/
theorem foldl_compareStep_cars (cars : List Car) :
    ∀ (ids : List String) (acc : Comparison),
      ((ids.foldl (compareStep cars) acc).cars)
        = acc.cars ++ compareEntries cars ids := by
  intro ids
  induction ids with
  | nil => intro acc; simp [compareEntries]
  | cons i t ih =>
    intro acc
    rw [List.foldl_cons, ih]
    unfold compareStep compareEntries
    cases h : getCarById cars i <;>
      simp [h, List.filterMap_cons]

/-- The ids of the contributed entries are exactly the found ids, in order. -/
theorem compareEntries_map_id (cars : List Car) :
    ∀ ids : List String,
      (compareEntries cars ids).map (fun e => e.id)
        = ids.filter (fun i => (getCarById cars i).isSome) := by
  intro ids
  induction ids with
  | nil => rfl
  | cons i t ih =>
    unfold compareEntries at ih ⊢
    rw [List.filterMap_cons, List.filter_cons]
    cases h : getCarById cars i with
    | none => simp [ih]
    | some c => simp [ih, compEntry]

/-- A three-car demo catalog. -/
def demoCatalog : List Car :=
  [demoCar, { demoCar with id := "demo-2" }, { demoCar with id := "demo-3" }]

/-- C8: `compare` produces one entry per id found in the catalog, in input
order, silently omitting unknown ids (never failing); with 3 existing ids it
returns exactly 3 entries. -/
theorem compare_one_entry_per_found_id (cars : List Car) :
    (∀ ids : List String,
        ((compareCars cars ids).cars.map (fun e => e.id))
          = ids.filter (fun i => (getCarById cars i).isSome))
      ∧ (compareCars demoCatalog ["demo-1", "demo-2", "demo-3"]).cars.length = 3 := by
  constructor
  · intro ids
    unfold compareCars
    rw [foldl_compareStep_cars]
    have he : emptyComparison.cars = [] := rfl
    rw [he, List.nil_append]
    exact compareEntries_map_id cars ids
  · decide

/-! ### Criteria filtering (`filter_by_criteria`, lines 461-489) -/

/-- Python truthiness of an optional string argument (`if body_type:`). -/
def truthyStr : Option String → Bool
  | none => false
  | some s => !s.isEmpty

/-- Python truthiness of an optional numeric argument (`if min_mpg:`). -/
def truthyNum : Option ℚ → Bool
  | none => false
  | some q => decide (q ≠ 0)

/-- `filter_by_criteria(body_type, min_mpg, max_price, min_seating)`: each
truthy criterion narrows the list, in source order. -/
def filterByCriteria (cars : List Car) (bodyType : Option String)
    (minMpg maxPrice minSeating : Option ℚ) : List Car :=
  let filtered := cars
  let filtered := if truthyStr bodyType then
      filtered.filter (fun c =>
        decide (toLowerStr c.basic_info.body_type = toLowerStr (bodyType.getD "")))
    else filtered
  let filtered := if truthyNum minMpg then
      filtered.filter (fun c => decide (minMpg.getD 0 ≤ c.specifications.mpg_combined))
    else filtered
  let filtered := if truthyNum maxPrice then
      filtered.filter (fun c => decide (c.basic_info.msrp ≤ maxPrice.getD 0))
    else filtered
  let filtered := if truthyNum minSeating then
      filtered.filter (fun c => decide (minSeating.getD 0 ≤ c.specifications.seating_capacity))
    else filtered
  filtered

/-- C10: a zero numeric criterion or an empty body-type string is falsy, so
that filter is skipped exactly as if the argument were absent; with all
criteria zero/empty the full catalog comes back unchanged. -/
theorem filter_by_criteria_zero_is_absent (cars : List Car) (bt : Option String)
    (mm mp ms : Option ℚ) :
    filterByCriteria cars (some "") mm mp ms = filterByCriteria cars none mm mp ms
      ∧ filterByCriteria cars bt (some 0) mp ms = filterByCriteria cars bt none mp ms
      ∧ filterByCriteria cars bt mm (some 0) ms = filterByCriteria cars bt mm none ms
      ∧ filterByCriteria cars bt mm mp (some 0) = filterByCriteria cars bt mm mp none
      ∧ filterByCriteria cars (some "") (some 0) (some 0) (some 0) = cars := by
  have h1 : truthyStr (some "") = false := rfl
  have h2 : truthyNum (some 0) = false := by decide
  have h3 : truthyStr none = false := rfl
  have h4 : truthyNum none = false := rfl
  refine ⟨?_, ?_, ?_, ?_, ?_⟩ <;> simp [filterByCriteria, h1, h2, h3, h4]

/-- The ten fixed lifestyle dimensions of the data model (spec section 3). -/
def dims10 : List String :=
  ["family_friendly", "adventure", "eco_conscious", "luxury", "performance",
   "budget_conscious", "city_driving", "commuter", "tech_enthusiast", "safety_focused"]

/-- A successful lookup comes from an entry of the list with that key. -/
theorem alookup_some_mem :
    ∀ (l : List (String × ℚ)) (k : String) (v : ℚ),
      alookup l k = some v → ∃ p, p ∈ l ∧ p.1 = k ∧ p.2 = v := by
  intro l
  induction l with
  | nil => intro k v h; simp [alookup] at h
  | cons p t ih =>
    intro k v h
    unfold alookup at h
    by_cases hk : p.1 = k
    · rw [if_pos hk] at h
      exact ⟨p, List.mem_cons_self p t, hk, Option.some_inj.mp h⟩
    · rw [if_neg hk] at h
      obtain ⟨q, hq, h1, h2⟩ := ih k v h
      exact ⟨q, List.mem_cons_of_mem p hq, h1, h2⟩

/-- Every dimension importance weight is positive (table values 0.85-1.2,
default 1). -/
theorem importanceOf_pos (d : String) : 0 < importanceOf d := by
  unfold importanceOf
  cases h : alookup dimensionImportance d with
  | none => norm_num
  | some v =>
    obtain ⟨p, hp, _, h2⟩ := alookup_some_mem _ _ _ h
    have hall : ∀ q ∈ dimensionImportance, 0 < q.2 := by
      intro q hq
      fin_cases hq <;> norm_num
    rw [Option.getD_some, ← h2]
    exact hall p hp

/-- Every matched pair comes from a profile entry whose dimension the car
also carries. -/
theorem mem_matchedPairs_elim {carScores userProfile : List (String × ℚ)}
    {q : ℚ × ℚ} (hq : q ∈ matchedPairs carScores userProfile) :
    ∃ d uv cv, (d, uv) ∈ userProfile ∧ alookup carScores d = some cv
      ∧ q = (cv * importanceOf d, uv * importanceOf d) := by
  unfold matchedPairs at hq
  rw [List.mem_filterMap] at hq
  obtain ⟨p, hp, hmap⟩ := hq
  cases h : alookup carScores p.1 with
  | none => rw [h] at hmap; exact absurd hmap (by simp)
  | some cv =>
    rw [h] at hmap
    simp only [Option.map_some', Option.some_inj] at hmap
    exact ⟨p.1, p.2, cv, by simpa using hp, h, hmap.symm⟩

/-- A profile entry whose dimension the car carries contributes its scaled
pair. -/
theorem mem_matchedPairs_intro {carScores userProfile : List (String × ℚ)}
    {d : String} {uv cv : ℚ} (hu : (d, uv) ∈ userProfile)
    (hc : alookup carScores d = some cv) :
    (cv * importanceOf d, uv * importanceOf d) ∈ matchedPairs carScores userProfile := by
  unfold matchedPairs
  rw [List.mem_filterMap]
  exact ⟨(d, uv), hu, by rw [hc]; rfl⟩

/-- A mapped list sum as a `Fin`-indexed finite sum. -/
theorem list_sum_map_fin (l : List (ℚ × ℚ)) (f : ℚ × ℚ → ℚ) :
    (l.map f).sum = ∑ i : Fin l.length, f (l.get i) := by
  rw [← List.ofFn_getElem_eq_map, List.sum_ofFn]
  rfl

/-- Cauchy-Schwarz for the accumulated cosine sums. -/
theorem cosine_cs (l : List (ℚ × ℚ)) :
    (dotSum l) ^ 2 ≤ carMagSum l * userMagSum l := by
  unfold dotSum carMagSum userMagSum
  rw [list_sum_map_fin, list_sum_map_fin, list_sum_map_fin]
  exact Finset.sum_mul_sq_le_sq_mul_sq Finset.univ (fun i => (l.get i).1)
    (fun i => (l.get i).2)


/-- C7: with well-formed positive vectors (all ten dimensions present,
all stored values positive), the similarity score always lies in [0, 100],
and when the two vectors agree on every dimension present in both, it is
exactly 100. -/
theorem cosine_identical_is_100_and_range_0_100
    (carScores userProfile : List (String × ℚ))
    (hcw : ∀ d ∈ dims10, (alookup carScores d).isSome = true)
    (huw : ∀ d ∈ dims10, (alookup userProfile d).isSome = true)
    (hcpos : ∀ p ∈ carScores, 0 < p.2)
    (hupos : ∀ p ∈ userProfile, 0 < p.2) :
    (0 ≤ calculateCosineSimilarity carScores userProfile
        ∧ calculateCosineSimilarity carScores userProfile ≤ 100)
      ∧ ((∀ p ∈ userProfile, ∀ q ∈ carScores, p.1 = q.1 → p.2 = q.2) →
          calculateCosineSimilarity carScores userProfile = 100) := by
  have hpairpos : ∀ q ∈ matchedPairs carScores userProfile, 0 < q.1 ∧ 0 < q.2 := by
    intro q hq
    obtain ⟨d, uv, cv, hu, hc, rfl⟩ := mem_matchedPairs_elim hq
    obtain ⟨p, hp, _, hv⟩ := alookup_some_mem _ _ _ hc
    constructor
    · exact mul_pos (hv ▸ hcpos p hp) (importanceOf_pos d)
    · exact mul_pos (hupos (d, uv) hu) (importanceOf_pos d)
  constructor
  · -- range
    unfold calculateCosineSimilarity
    set l := matchedPairs carScores userProfile with hl
    by_cases hmag : 0 < carMagSum l ∧ 0 < userMagSum l
    · rw [if_pos hmag]
      have hdotpos : 0 ≤ dotSum l := by
        unfold dotSum
        apply List.sum_nonneg
        intro x hx
        rw [List.mem_map] at hx
        obtain ⟨q, hq, rfl⟩ := hx
        have h := hpairpos q hq
        exact le_of_lt (mul_pos h.1 h.2)
      have hC : (0 : ℝ) < Real.sqrt (carMagSum l) :=
        Real.sqrt_pos.mpr (by exact_mod_cast hmag.1)
      have hU : (0 : ℝ) < Real.sqrt (userMagSum l) :=
        Real.sqrt_pos.mpr (by exact_mod_cast hmag.2)
      have hcs : ((dotSum l : ℝ)) ≤ Real.sqrt (carMagSum l) * Real.sqrt (userMagSum l) := by
        have h2 : ((dotSum l : ℝ)) ^ 2 ≤ (carMagSum l : ℝ) * (userMagSum l : ℝ) := by
          exact_mod_cast cosine_cs l
        calc ((dotSum l : ℝ)) = Real.sqrt (((dotSum l : ℝ)) ^ 2) :=
              (Real.sqrt_sq (by exact_mod_cast hdotpos)).symm
          _ ≤ Real.sqrt ((carMagSum l : ℝ) * (userMagSum l : ℝ)) := Real.sqrt_le_sqrt h2
          _ = Real.sqrt (carMagSum l) * Real.sqrt (userMagSum l) :=
              Real.sqrt_mul (by exact_mod_cast le_of_lt hmag.1) _
      constructor
      · have : (0 : ℝ) ≤ (dotSum l : ℝ) / (Real.sqrt (carMagSum l) * Real.sqrt (userMagSum l)) :=
          div_nonneg (by exact_mod_cast hdotpos) (le_of_lt (mul_pos hC hU))
        nlinarith
      · have hdiv : (dotSum l : ℝ) / (Real.sqrt (carMagSum l) * Real.sqrt (userMagSum l)) ≤ 1 :=
          (div_le_one (mul_pos hC hU)).mpr hcs
        nlinarith
    · rw [if_neg hmag]
      norm_num
  · -- identical overlap
    intro hid
    have heq : ∀ q ∈ matchedPairs carScores userProfile, q.1 = q.2 := by
      intro q hq
      obtain ⟨d, uv, cv, hu, hc, rfl⟩ := mem_matchedPairs_elim hq
      obtain ⟨p, hp, hk, hv⟩ := alookup_some_mem _ _ _ hc
      have : uv = cv := by
        have := hid (d, uv) hu p hp (by rw [hk])
        rw [← hv]
        exact this
      rw [this]
    -- one overlapping pair
    have hff : "family_friendly" ∈ dims10 := by decide
    have hus := huw "family_friendly" hff
    have hcs := hcw "family_friendly" hff
    rw [Option.isSome_iff_exists] at hus hcs
    obtain ⟨uv, huv⟩ := hus
    obtain ⟨cv, hcv⟩ := hcs
    obtain ⟨pu, hpu, hpuk, hpuv⟩ := alookup_some_mem _ _ _ huv
    have hmem : (cv * importanceOf "family_friendly", uv * importanceOf "family_friendly")
        ∈ matchedPairs carScores userProfile := by
      apply mem_matchedPairs_intro _ hcv
      have : pu = ("family_friendly", uv) := by
        cases pu
        simp_all
      rw [← this]
      exact hpu
    set l := matchedPairs carScores userProfile with hl
    have hdots : carMagSum l = dotSum l ∧ userMagSum l = dotSum l := by
      constructor
      · unfold carMagSum dotSum
        congr 1
        apply List.map_congr_left
        intro q hq
        rw [heq q hq]
        ring
      · unfold userMagSum dotSum
        congr 1
        apply List.map_congr_left
        intro q hq
        rw [heq q hq]
        ring
    have hSpos : 0 < dotSum l := by
      have hterm : 0 < uv * importanceOf "family_friendly" * (uv * importanceOf "family_friendly") := by
        have h1 := hupos pu hpu
        rw [hpuv] at h1
        have h2 := importanceOf_pos "family_friendly"
        exact mul_pos (mul_pos h1 h2) (mul_pos h1 h2)
      have hmem2 : (uv * importanceOf "family_friendly") * (uv * importanceOf "family_friendly")
          ∈ (l.map (fun q => q.1 * q.2)) := by
        rw [List.mem_map]
        refine ⟨_, hmem, ?_⟩
        have hq := heq _ hmem
        simp only at hq ⊢
        rw [hq]
      have hnn : ∀ x ∈ l.map (fun q => q.1 * q.2), 0 ≤ x := by
        intro x hx
        rw [List.mem_map] at hx
        obtain ⟨q, hq, rfl⟩ := hx
        have h := hpairpos q hq
        exact le_of_lt (mul_pos h.1 h.2)
      have := List.single_le_sum hnn _ hmem2
      unfold dotSum
      calc (0 : ℚ) < uv * importanceOf "family_friendly" * (uv * importanceOf "family_friendly") := hterm
        _ ≤ _ := this
    unfold calculateCosineSimilarity
    rw [← hl]
    rw [if_pos ⟨by rw [hdots.1]; exact hSpos, by rw [hdots.2]; exact hSpos⟩]
    rw [hdots.1, hdots.2]
    have hS : (0 : ℝ) < (dotSum l : ℝ) := by exact_mod_cast hSpos
    rw [Real.mul_self_sqrt (le_of_lt hS)]
    rw [div_self (ne_of_gt hS)]
    norm_num

/-- Witness for `cosine_identical_is_100_and_range_0_100` on concrete
vectors. -/
theorem cosine_identical_witness :
    calculateCosineSimilarity demoCar.lifestyle_scores demoCar.lifestyle_scores = 100
      ∧ 0 ≤ calculateCosineSimilarity demoCar.lifestyle_scores demoProfile
      ∧ calculateCosineSimilarity demoCar.lifestyle_scores demoProfile ≤ 100 :=
  ⟨(cosine_identical_is_100_and_range_0_100 demoCar.lifestyle_scores
      demoCar.lifestyle_scores (by decide) (by decide) (by decide) (by decide)).2
        (by decide),
   (cosine_identical_is_100_and_range_0_100 demoCar.lifestyle_scores demoProfile
      (by decide) (by decide) (by decide) (by decide)).1.1,
   (cosine_identical_is_100_and_range_0_100 demoCar.lifestyle_scores demoProfile
      (by decide) (by decide) (by decide) (by decide)).1.2⟩

/-! ### State-explicit model of `find_matches` for the frame property (C9)

Python objects live on a heap; `dict.copy()` allocates a fresh object and
subsequent key assignments mutate only that object.  To state that
`find_matches` never mutates the caller's profile dict or the catalog's car
dicts, the same loop is embedded once more with the heap passed explicitly:
profile dicts and car dicts are heap cells addressed by index, `.copy()` is
an allocation, and each `d[k] = v` is a store. -/

instance : Inhabited Car :=
  ⟨{ id := ""
     basic_info :=
       { make := "", model := "", body_type := "", msrp := 0, image_url := "" }
     specifications :=
       { mpg_combined := 0, horsepower := 0, seating_capacity := 0, cargo_space := 0
         engine := "", drivetrain := "" }
     features := { safety := [], technology := [], comfort := [], entertainment := [] }
     lifestyle_scores := []
     costs := { insurance_annual_estimate := 0, maintenance_annual_estimate := 0 }
     pros := [], cons := [] }⟩

/-- A car dict on the heap: the catalog record plus the three keys
`find_matches` adds to its copies (absent on catalog entries). -/
structure CarObj where
  base : Car
  match_score : Option ℝ := none
  score_breakdown : Option Breakdown := none
  match_reasons : Option (List String) := none

instance : Inhabited CarObj := ⟨{ base := default }⟩

/-- The mutable store: profile dicts and car dicts, addressed by index. -/
structure PyState where
  profHeap : List (List (String × ℚ))
  carHeap : List CarObj

/-- `profile.copy()`: allocate a fresh profile cell, returning its address. -/
def allocProf (s : PyState) (d : List (String × ℚ)) : PyState × Nat :=
  ({ s with profHeap := s.profHeap ++ [d] }, s.profHeap.length)

/-- Dereference a profile address. -/
def readProf (s : PyState) (r : Nat) : List (String × ℚ) := s.profHeap.getD r []

/-- `d[k] = v` on a dict value: overwrite in place when the key exists,
append otherwise. -/
def setKey (p : List (String × ℚ)) (d : String) (v : ℚ) : List (String × ℚ) :=
  if hasKey p d then p.map (fun q => if q.1 = d then (q.1, v) else q) else p ++ [(d, v)]

/-- `adjusted_profile[dimension] = ...`: store into a profile cell. -/
def writeProf (s : PyState) (r : Nat) (d : String) (v : ℚ) : PyState :=
  { s with profHeap := s.profHeap.set r (setKey (readProf s r) d v) }

/-- `car.copy()`: allocate a fresh car cell. -/
def allocCar (s : PyState) (o : CarObj) : PyState × Nat :=
  ({ s with carHeap := s.carHeap ++ [o] }, s.carHeap.length)

/-- Dereference a car address. -/
def readCar (s : PyState) (r : Nat) : CarObj := s.carHeap.getD r default

/-- `car_with_score['match_score'] = ...` (line 134). -/
def writeCarScore (s : PyState) (r : Nat) (v : ℝ) : PyState :=
  { s with carHeap := s.carHeap.set r { readCar s r with match_score := some v } }

/-- `car_with_score['score_breakdown'] = ...` (line 135). -/
def writeCarBreakdown (s : PyState) (r : Nat) (v : Breakdown) : PyState :=
  { s with carHeap := s.carHeap.set r { readCar s r with score_breakdown := some v } }

/-- `car_with_score['match_reasons'] = ...` (line 141). -/
def writeCarReasons (s : PyState) (r : Nat) (v : List String) : PyState :=
  { s with carHeap := s.carHeap.set r { readCar s r with match_reasons := some v } }

/-- The ten dimension keys the boost dict can carry.  Each loop iteration of
lines 86-89 writes a distinct profile key, so iterating the keys in this
fixed order is equivalent to the boost dict's own insertion order. -/
def boostDimsOrder : List String :=
  ["eco_conscious", "tech_enthusiast", "budget_conscious", "family_friendly",
   "safety_focused", "performance", "luxury", "adventure", "commuter", "city_driving"]

/-- One iteration of the boost loop (lines 86-89) on the heap. -/
def boostStep (prefs : ExtractedPreferences) (adjRef : Nat) (st : PyState) (d : String) :
    PyState :=
  match boostOf prefs.lifestyle_boosts d with
  | none => st
  | some boost =>
    let adj := readProf st adjRef
    if hasKey adj d then
      writeProf st adjRef d (min 10 ((alookup adj d).getD 0 + boost))
    else st

/-- `match_score` of a heap cell, as the sort key of line 148. -/
noncomputable def refScore (s : PyState) (r : Nat) : ℝ := (readCar s r).match_score.getD 0

/-- One iteration of the scoring loop (lines 97-145) on the heap: filter,
score, `car.copy()`, then the three stores into the copy. -/
noncomputable def carStep (prefs : ExtractedPreferences) (adjRef : Nat) (budget : Option ℤ)
    (acc : PyState × List Nat) (r : Nat) : PyState × List Nat :=
  let st := acc.1
  let car := (readCar st r).base
  if meetsConversationFilters car prefs.filters then
    let adjusted := readProf st adjRef
    let cosineScore : ℝ := calculateCosineSimilarity car.lifestyle_scores adjusted
    let budgetScore : ℝ :=
      match budget with
      | some b => if b ≠ 0 then ((calculateBudgetAffinity car.basic_info.msrp b : ℚ) : ℝ)
          else 0.85
      | none => 0.85
    let featureScore : ℝ := ((calculateFeatureScore car adjusted : ℚ) : ℝ)
    let valueScore : ℝ := ((calculateValueScore car : ℚ) : ℝ)
    let composite : ℝ := cosineScore * 0.40 + budgetScore * 0.30 + featureScore * 0.20
      + valueScore * 0.10
    let alloc2 := allocCar st (readCar st r)
    let st1 := writeCarScore alloc2.1 alloc2.2 (round2 composite)
    let st2 := writeCarBreakdown st1 alloc2.2
      { lifestyle_match := round2 cosineScore
        budget_fit := round2 budgetScore
        feature_quality := round2 featureScore
        value_score := round2 valueScore }
    let st3 := writeCarReasons st2 alloc2.2 (generateMatchReasons car adjusted composite)
    (st3, acc.2 ++ [alloc2.2])
  else acc

/-- `find_matches` on the explicit heap: profile addressed by `profRef`, the
catalog by `carRefs`; returns the final heap and the addresses of the top-N
scored copies. -/
noncomputable def findMatchesSt (s0 : PyState) (profRef : Nat) (carRefs : List Nat)
    (budget : Option ℤ) (ctx : List Msg) (topN : ℕ) : PyState × List Nat :=
  let prefs := parseConversationPreferences ctx
  let alloc1 := allocProf s0 (readProf s0 profRef)
  let s2 := boostDimsOrder.foldl (boostStep prefs alloc1.2) alloc1.1
  let loop := carRefs.foldl (carStep prefs alloc1.2 budget) (s2, ([] : List Nat))
  (loop.1, (@List.insertionSort Nat (fun a b => refScore loop.1 b ≤ refScore loop.1 a)
      (fun _ _ => Real.decidableLE _ _) loop.2).take topN)

/-- The heap cells that existed at entry still hold their original values. -/
def PreservesInit (s0 s : PyState) : Prop :=
  s0.profHeap.length ≤ s.profHeap.length
    ∧ s0.carHeap.length ≤ s.carHeap.length
    ∧ (∀ i, i < s0.profHeap.length → s.profHeap[i]? = s0.profHeap[i]?)
    ∧ (∀ i, i < s0.carHeap.length → s.carHeap[i]? = s0.carHeap[i]?)

theorem preservesInit_refl (s : PyState) : PreservesInit s s :=
  ⟨le_refl _, le_refl _, fun _ _ => rfl, fun _ _ => rfl⟩

theorem preservesInit_allocProf (s0 s : PyState) (d : List (String × ℚ))
    (h : PreservesInit s0 s) : PreservesInit s0 (allocProf s d).1 := by
  obtain ⟨h1, h2, h3, h4⟩ := h
  refine ⟨?_, h2, ?_, h4⟩
  · simp only [allocProf, List.length_append]
    omega
  · intro i hi
    simp only [allocProf]
    rw [List.getElem?_append, if_pos (by omega)]
    exact h3 i hi

theorem preservesInit_allocCar (s0 s : PyState) (o : CarObj)
    (h : PreservesInit s0 s) : PreservesInit s0 (allocCar s o).1 := by
  obtain ⟨h1, h2, h3, h4⟩ := h
  refine ⟨h1, ?_, h3, ?_⟩
  · simp only [allocCar, List.length_append]
    omega
  · intro i hi
    simp only [allocCar]
    rw [List.getElem?_append, if_pos (by omega)]
    exact h4 i hi

theorem preservesInit_writeProf (s0 s : PyState) (r : Nat) (d : String) (v : ℚ)
    (h : PreservesInit s0 s) (hr : s0.profHeap.length ≤ r) :
    PreservesInit s0 (writeProf s r d v) := by
  obtain ⟨h1, h2, h3, h4⟩ := h
  refine ⟨?_, h2, ?_, h4⟩
  · simp only [writeProf, List.length_set]
    exact h1
  · intro i hi
    simp only [writeProf]
    rw [List.getElem?_set_ne (by omega)]
    exact h3 i hi

theorem preservesInit_writeCarScore (s0 s : PyState) (r : Nat) (v : ℝ)
    (h : PreservesInit s0 s) (hr : s0.carHeap.length ≤ r) :
    PreservesInit s0 (writeCarScore s r v) := by
  obtain ⟨h1, h2, h3, h4⟩ := h
  refine ⟨h1, ?_, h3, ?_⟩
  · simp only [writeCarScore, List.length_set]
    exact h2
  · intro i hi
    simp only [writeCarScore]
    rw [List.getElem?_set_ne (by omega)]
    exact h4 i hi

theorem preservesInit_writeCarBreakdown (s0 s : PyState) (r : Nat) (v : Breakdown)
    (h : PreservesInit s0 s) (hr : s0.carHeap.length ≤ r) :
    PreservesInit s0 (writeCarBreakdown s r v) := by
  obtain ⟨h1, h2, h3, h4⟩ := h
  refine ⟨h1, ?_, h3, ?_⟩
  · simp only [writeCarBreakdown, List.length_set]
    exact h2
  · intro i hi
    simp only [writeCarBreakdown]
    rw [List.getElem?_set_ne (by omega)]
    exact h4 i hi

theorem preservesInit_writeCarReasons (s0 s : PyState) (r : Nat) (v : List String)
    (h : PreservesInit s0 s) (hr : s0.carHeap.length ≤ r) :
    PreservesInit s0 (writeCarReasons s r v) := by
  obtain ⟨h1, h2, h3, h4⟩ := h
  refine ⟨h1, ?_, h3, ?_⟩
  · simp only [writeCarReasons, List.length_set]
    exact h2
  · intro i hi
    simp only [writeCarReasons]
    rw [List.getElem?_set_ne (by omega)]
    exact h4 i hi

theorem foldl_inv {σ β : Type} (P : σ → Prop) (f : σ → β → σ)
    (hf : ∀ s b, P s → P (f s b)) :
    ∀ (l : List β) (s : σ), P s → P (l.foldl f s) := by
  intro l
  induction l with
  | nil => intro s hs; exact hs
  | cons b t ih => intro s hs; exact ih (f s b) (hf s b hs)

theorem boostStep_preserves (s0 : PyState) (prefs : ExtractedPreferences)
    (adjRef : Nat) (hadj : s0.profHeap.length ≤ adjRef) :
    ∀ st d, PreservesInit s0 st → PreservesInit s0 (boostStep prefs adjRef st d) := by
  intro st d h
  unfold boostStep
  cases boostOf prefs.lifestyle_boosts d with
  | none => exact h
  | some boost =>
    show PreservesInit s0 (if hasKey (readProf st adjRef) d = true then
      writeProf st adjRef d (min 10 ((alookup (readProf st adjRef) d).getD 0 + boost))
      else st)
    by_cases hk : hasKey (readProf st adjRef) d = true
    · rw [if_pos hk]
      exact preservesInit_writeProf s0 st adjRef d _ h hadj
    · rw [if_neg hk]
      exact h

theorem carStep_preserves (s0 : PyState) (prefs : ExtractedPreferences)
    (adjRef : Nat) (budget : Option ℤ) :
    ∀ (acc : PyState × List Nat) (r : Nat), PreservesInit s0 acc.1 →
      PreservesInit s0 (carStep prefs adjRef budget acc r).1 := by
  intro acc r h
  unfold carStep
  by_cases hm : meetsConversationFilters (readCar acc.1 r).base prefs.filters = true
  · simp only [hm, if_true]
    have hlen : s0.carHeap.length ≤ acc.1.carHeap.length := h.2.1
    apply preservesInit_writeCarReasons s0 _ _ _ ?_ ?_
    · apply preservesInit_writeCarBreakdown s0 _ _ _ ?_ ?_
      · apply preservesInit_writeCarScore s0 _ _ _ ?_ ?_
        · exact preservesInit_allocCar s0 acc.1 _ h
        · exact hlen
      · exact hlen
    · exact hlen
  · rw [if_neg hm]
    exact h

theorem findMatchesSt_preserves (s0 : PyState) (profRef : Nat) (carRefs : List Nat)
    (budget : Option ℤ) (ctx : List Msg) (topN : ℕ) :
    PreservesInit s0 (findMatchesSt s0 profRef carRefs budget ctx topN).1 := by
  show PreservesInit s0
    (carRefs.foldl
      (carStep (parseConversationPreferences ctx) s0.profHeap.length budget)
      (boostDimsOrder.foldl
        (boostStep (parseConversationPreferences ctx) s0.profHeap.length)
        (allocProf s0 (readProf s0 profRef)).1, ([] : List Nat))).1
  exact foldl_inv (fun acc : PyState × List Nat => PreservesInit s0 acc.1) _
    (carStep_preserves s0 _ _ budget) carRefs _
    (foldl_inv (fun st => PreservesInit s0 st) _
      (boostStep_preserves s0 _ _ (le_refl _)) boostDimsOrder _
      (preservesInit_allocProf s0 s0 _ (preservesInit_refl s0)))



/-- A one-profile, one-car initial heap. -/
def demoState : PyState :=
  { profHeap := [demoProfile], carHeap := [{ base := demoCar }] }

/-- C9: ranking leaves its inputs unchanged — after `find_matches` runs, the
caller's profile cell and every catalog car cell hold exactly their original
values; only freshly allocated copies were written. -/
theorem rank_leaves_profile_and_catalog_unchanged (s0 : PyState) (profRef : Nat)
    (carRefs : List Nat) (budget : Option ℤ) (ctx : List Msg) (topN : ℕ)
    (hp : profRef < s0.profHeap.length)
    (hc : ∀ r ∈ carRefs, r < s0.carHeap.length) :
    (findMatchesSt s0 profRef carRefs budget ctx topN).1.profHeap[profRef]?
        = s0.profHeap[profRef]?
      ∧ ∀ r ∈ carRefs,
          (findMatchesSt s0 profRef carRefs budget ctx topN).1.carHeap[r]?
            = s0.carHeap[r]? := by
  have key := findMatchesSt_preserves s0 profRef carRefs budget ctx topN
  exact ⟨key.2.2.1 profRef hp, fun r hr => key.2.2.2 r (hc r hr)⟩

/-- Witness for `rank_leaves_profile_and_catalog_unchanged` on a concrete
one-profile, one-car heap. -/
theorem rank_leaves_unchanged_witness :
    (findMatchesSt demoState 0 [0] none [] 4).1.profHeap[0]?
        = demoState.profHeap[0]?
      ∧ ∀ r ∈ [0],
          (findMatchesSt demoState 0 [0] none [] 4).1.carHeap[r]?
            = demoState.carHeap[r]? :=
  rank_leaves_profile_and_catalog_unchanged demoState 0 [0] none [] 4
    (by decide) (by decide)

end CarConvo
